import Mathlib

/-!
Verification of the mcp-tester repository's transport / test-execution core.

The repository contains two coexisting framework implementations plus a
passive transport detector:
- `V1` models `mcp-test-framework-advanced.js` (repository root);
- `V2` models `lib/mcp-test-framework-advanced-v2.js` (the enhanced
  framework with retry logic, schema validation and reporting);
- `AutoDetect` models `lib/auto-detect-transport.js`.

External collaborators (the MCP SDK client, the Node HTTP stack, the
platform URL parser and JSON parser) are modelled as explicit outcome
parameters; everything the repository itself computes is translated
function-for-function from the JavaScript source.  JavaScript numbers used
here are durations and counters, modelled as `Nat`; JavaScript truthiness
on optional strings is modelled explicitly (`none` and the empty string
are falsy).
-/

namespace MCPTester

/-- Leading-match test on character lists: the first list (the pattern)
occurs at the head of the second. -/
def chLead : List Char → List Char → Bool
  | [], _ => true
  | _ :: _, [] => false
  | p :: ps, c :: cs => p == c && chLead ps cs

/-- Substring occurrence on character lists, scanning every suffix. -/
def chIncl (pat : List Char) : List Char → Bool
  | [] => chLead pat []
  | c :: cs => chLead pat (c :: cs) || chIncl pat cs

/-- JavaScript `s.includes(pat)` on strings. -/
def jsIncludes (s pat : String) : Bool :=
  chIncl pat.toList s.toList

/-- JavaScript `s.toLowerCase()` (ASCII, which is all the source
compares), applied character by character. -/
def lowerStr (s : String) : String :=
  String.mk (s.toList.map Char.toLower)

/-- JavaScript truthiness of an optional string (absent and "" are falsy). -/
def jsTruthy : Option String → Bool
  | none => false
  | some s => s != ""

/-- JavaScript values as they occur in tool arguments and schema enums.
Arrays do not occur in any argument or enum the repository handles, so the
value universe is strings, numbers, booleans and plain objects. -/
inductive JSVal where
  | str (s : String)
  | num (n : Int)
  | bool (b : Bool)
  | obj (fields : List (String × JSVal))

/-- JavaScript template-literal stringification of a value (an object
interpolates as "[object Object]"). -/
def jsShow : JSVal → String
  | .str s => s
  | .num n => toString n
  | .bool b => cond b "true" "false"
  | .obj _ => "[object Object]"

/-- JavaScript `Array.prototype.includes` comparison (SameValueZero) as it
applies between a schema's enum entries and a supplied argument value:
primitives compare structurally; two object values coming from a schema and
a call site are distinct references and never compare equal. -/
def jsEnumEq : JSVal → JSVal → Bool
  | .str a, .str b => a == b
  | .num a, .num b => a == b
  | .bool a, .bool b => a == b
  | _, _ => false

/-- One property entry of a declared JSON input schema
(`tool.inputSchema.properties[field]`). -/
structure PropSchema where
  type : Option String := none
  enum : Option (List JSVal) := none
  description : Option String := none

/-- A declared tool input schema as `validateAgainstSchema` reads it:
only the top-level `required` list and `properties` map are consulted. -/
structure JSONSchema where
  required : Option (List String) := none
  properties : Option (List (String × PropSchema)) := none

/-- JavaScript `field in data` for the supplied-arguments object. -/
def hasKey (data : List (String × JSVal)) (f : String) : Bool :=
  data.any (fun p => p.1 == f)

/-- JavaScript `data[field]` (object keys are unique, so first match). -/
def jsLookup (data : List (String × JSVal)) (f : String) : Option JSVal :=
  (data.find? (fun p => p.1 == f)).map (fun p => p.2)

/-- JavaScript `schema.properties[field]`. -/
def propLookup (props : List (String × PropSchema)) (f : String) : Option PropSchema :=
  (props.find? (fun p => p.1 == f)).map (fun p => p.2)

/-- The suggestion string built for a missing required field from its
declared property schema, per `validateAgainstSchema` in
lib/mcp-test-framework-advanced-v2.js: enum branch first, then the
type-directed placeholder, then the optional description annotation
(JavaScript skips a falsy, i.e. empty, description). -/
def missingSuggestion (field : String) (prop : PropSchema) : String :=
  let core :=
    match prop.enum with
    | some vs => "one of [" ++ String.intercalate ", " (vs.map (fun v => "\"" ++ jsShow v ++ "\"")) ++ "]"
    | none =>
      match prop.type with
      | some "string" => "\"your-value\""
      | some "number" => "123"
      | some "boolean" => "true"
      | some t => "<" ++ t ++ ">"
      | none => "<undefined>"
  let base := "Add \"" ++ field ++ "\": " ++ core
  match prop.description with
  | some d => if d == "" then base else base ++ " // " ++ d
  | none => base

/-- Errors pushed by the required-fields loop of `validateAgainstSchema`
(one per declared required field absent from the supplied data, in order). -/
def requiredErrors (data : List (String × JSVal)) (schema : JSONSchema) : List String :=
  match schema.required with
  | none => []
  | some req =>
    (req.filter (fun f => !hasKey data f)).map (fun f => "Missing required field: " ++ f)

/-- Suggestions pushed by the required-fields loop (only for missing fields
that have a `properties` entry). -/
def requiredSuggestions (data : List (String × JSVal)) (schema : JSONSchema) : List String :=
  match schema.required with
  | none => []
  | some req =>
    (req.filter (fun f => !hasKey data f)).filterMap (fun f =>
      match schema.properties with
      | none => none
      | some props => (propLookup props f).map (fun prop => missingSuggestion f prop))

/-- The enum-violation error for one property entry, when the field is
supplied and the declared enum does not include its value. -/
def enumViolation (data : List (String × JSVal)) (p : String × PropSchema) : Option (String × String) :=
  match p.2.enum with
  | none => none
  | some vs =>
    if hasKey data p.1 then
      match jsLookup data p.1 with
      | none => none
      | some v =>
        if vs.any (fun w => jsEnumEq w v) then none
        else some ("Invalid value for " ++ p.1 ++ ": \"" ++ jsShow v ++ "\"",
                   "Use one of: " ++ String.intercalate ", " (vs.map (fun w => "\"" ++ jsShow w ++ "\"")))
    else none

/-- Errors pushed by the enum loop of `validateAgainstSchema`. -/
def enumErrors (data : List (String × JSVal)) (schema : JSONSchema) : List String :=
  match schema.properties with
  | none => []
  | some props => props.filterMap (fun p => (enumViolation data p).map (fun q => q.1))

/-- Suggestions pushed by the enum loop of `validateAgainstSchema`. -/
def enumSuggestions (data : List (String × JSVal)) (schema : JSONSchema) : List String :=
  match schema.properties with
  | none => []
  | some props => props.filterMap (fun p => (enumViolation data p).map (fun q => q.2))

/-- Result object of `validateAgainstSchema`. -/
structure ValidationResult where
  valid : Bool
  errors : List String
  suggestions : List String
deriving DecidableEq

/-- `validateAgainstSchema(data, schema)` from
lib/mcp-test-framework-advanced-v2.js: the required-fields loop runs first,
then the enum loop, each appending to the shared errors and suggestions
arrays; `valid` is `errors.length === 0`. -/
def validateAgainstSchema (data : List (String × JSVal)) (schema : JSONSchema) : ValidationResult :=
  let errors := requiredErrors data schema ++ enumErrors data schema
  let suggestions := requiredSuggestions data schema ++ enumSuggestions data schema
  { valid := errors == [], errors := errors, suggestions := suggestions }

/-- The free-form `details` payload attached to the framework's error
objects; each field mirrors one property the source actually sets. -/
structure Details where
  testName : Option String := none
  timeout : Option Nat := none
  transport : Option String := none
  lastError : Option String := none
  verifyError : Option String := none
deriving DecidableEq

/-- A JavaScript error as thrown or caught by the framework: `name`
identifies the class (Error, MCPTestError, ConnectionError,
TestTimeoutError), `code` and `details` are the MCPTestError extras
(absent on plain errors). -/
structure MCPErr where
  name : String := "Error"
  message : String
  code : Option String := none
  details : Option Details := none
deriving DecidableEq

/-- A plain JavaScript `Error` (no code, no details). -/
def plainErr (msg : String) : MCPErr :=
  { message := msg }

/-- `new MCPTestError(message, code)` from
lib/mcp-test-framework-advanced-v2.js. -/
def mcpTestErr (msg code : String) : MCPErr :=
  { name := "MCPTestError", message := msg, code := some code, details := some {} }

/-- A transport configuration object as the CLI or a caller supplies it
(the tagged-union TransportDescriptor; absent fields are `none`). -/
structure TransportConfig where
  type : Option String := none
  command : Option String := none
  args : Option (List String) := none
  url : Option String := none
  headers : Option (List (String × String)) := none
  auth : Option String := none
deriving DecidableEq

/-- The constructed SDK transport object (construction only; connecting is
a separate step on the client). -/
inductive Transport where
  | stdioT (command : String) (args : List String)
  | sseT (url : String) (headers : List (String × String))
  | streamableHttpT (url : String) (headers : List (String × String))
deriving DecidableEq

namespace V2

/-- `createTransport` from lib/mcp-test-framework-advanced-v2.js: switch on
the raw `type` tag; a falsy `command` (stdio) or `url` (sse/streamableHttp)
throws an INVALID_CONFIG MCPTestError, an unrecognised tag throws
INVALID_TRANSPORT.  An absent tag interpolates as "undefined" in the
message, as JavaScript does. -/
def createTransport (c : MCPTester.TransportConfig) : Except MCPTester.MCPErr MCPTester.Transport :=
  match c.type with
  | some "stdio" =>
    if MCPTester.jsTruthy c.command then
      .ok (.stdioT (c.command.getD "") (c.args.getD []))
    else
      .error (MCPTester.mcpTestErr "stdio transport requires \"command\" parameter" "INVALID_CONFIG")
  | some "sse" =>
    if MCPTester.jsTruthy c.url then
      .ok (.sseT (c.url.getD "") (c.headers.getD []))
    else
      .error (MCPTester.mcpTestErr "SSE transport requires \"url\" parameter" "INVALID_CONFIG")
  | some "streamableHttp" =>
    if MCPTester.jsTruthy c.url then
      .ok (.streamableHttpT (c.url.getD "") (c.headers.getD []))
    else
      .error (MCPTester.mcpTestErr "streamableHttp transport requires \"url\" parameter" "INVALID_CONFIG")
  | t =>
    .error (MCPTester.mcpTestErr
      ("Unknown transport type: " ++ (match t with | some s => s | none => "undefined"))
      "INVALID_TRANSPORT")

/-- The declared shape of one tool from `listTools` (only the pieces the
framework reads). -/
structure ToolInfo where
  name : String
  description : Option String := none
  inputSchema : Option MCPTester.JSONSchema := none

/-- Outcomes of the external SDK client calls made during one connection
attempt: `connect` is `client.connect(transport)`, `listTools` is the
post-connect liveness call. -/
structure AttemptEnv where
  connect : Except MCPTester.MCPErr Unit
  listTools : Except MCPTester.MCPErr (List ToolInfo)

/-- A live Session: the connected client handle together with its
transport. -/
structure Session where
  transport : MCPTester.Transport
deriving DecidableEq

/-- `transportConfig.type || 'stdio'`: the label used in connection error
payloads and log lines. -/
def transportTypeLabel (c : MCPTester.TransportConfig) : String :=
  if MCPTester.jsTruthy c.type then c.type.getD "" else "stdio"

/-- The ConnectionError raised when every attempt has been exhausted:
message names the attempt total, details carry the transport label and the
last underlying error message. -/
def connectExhaustedErr (total : Nat) (tt : String) (lastMsg : Option String) : MCPTester.MCPErr :=
  { name := "ConnectionError",
    message := "Failed to connect after " ++ toString total ++ " attempts",
    code := some "CONNECTION_ERROR",
    details := some { transport := some tt, lastError := lastMsg } }

/-- The ConnectionError raised when the transport-level connect succeeded
but the liveness `listTools` call failed. -/
def verifyFailedErr (tt : String) (verifyMsg : String) : MCPTester.MCPErr :=
  { name := "ConnectionError",
    message := "Connection established but server not responding correctly",
    code := some "CONNECTION_ERROR",
    details := some { transport := some tt, verifyError := some verifyMsg } }

/-- The body of one iteration of the retry loop in `connectToServer`:
build the transport (factory errors are thrown inside the try), connect,
then verify liveness with `listTools`; a liveness failure is wrapped as a
ConnectionError.  Any thrown error is the attempt's failure. -/
def attemptOnce (tt : String) (cfg : MCPTester.TransportConfig) (e : AttemptEnv) :
    Except MCPTester.MCPErr Session :=
  match createTransport cfg with
  | .error err => .error err
  | .ok t =>
    match e.connect with
    | .error err => .error err
    | .ok _ =>
      match e.listTools with
      | .error ve => .error (verifyFailedErr tt ve.message)
      | .ok _ => .ok { transport := t }

/-- The retry loop of `connectToServer`: `total` is the constant attempt
budget used in the final error message, `i` the current attempt index,
`rem` the attempts still allowed, `lastMsg` the message of the most recent
failure.  Returns the number of attempts performed (the
`metrics.connectionAttempts` increments) paired with the outcome. -/
def connectLoop (total : Nat) (tt : String) (cfg : MCPTester.TransportConfig)
    (env : Nat → AttemptEnv) : Nat → Nat → Option String → Nat × Except MCPTester.MCPErr Session
  | _, 0, lastMsg => (0, .error (connectExhaustedErr total tt lastMsg))
  | i, rem + 1, _ =>
    match attemptOnce tt cfg (env i) with
    | .ok s => (1, .ok s)
    | .error e =>
      let r := connectLoop total tt cfg env (i + 1) rem (some e.message)
      (r.1 + 1, r.2)

/-- `connectToServer` from lib/mcp-test-framework-advanced-v2.js with
retry policy `retryAttempts` (the loop runs for attempt = 0 ..
retryAttempts, i.e. retryAttempts + 1 attempts); `env i` gives the
external outcomes of attempt `i`.  First component: how many attempts ran
(the connectionAttempts counter delta). -/
def connectToServer (retryAttempts : Nat) (cfg : MCPTester.TransportConfig)
    (env : Nat → AttemptEnv) : Nat × Except MCPTester.MCPErr Session :=
  connectLoop (retryAttempts + 1) (transportTypeLabel cfg) cfg env 0 (retryAttempts + 1) none

/-- The settlement of one test function: it resolves or rejects after
`time` milliseconds of wall clock. -/
structure FnOutcome (α : Type) where
  time : Nat
  res : Except MCPTester.MCPErr α

/-- One recorded TestResult (v2): the fields `executeTest` sets on the
test object.  `result` is populated on success, the error fields on
failure. -/
structure TestResult (α : Type) where
  name : String
  status : String
  result : Option α := none
  error : Option String := none
  errorCode : Option String := none
  errorDetails : Option MCPTester.Details := none
  duration : Nat
deriving DecidableEq

/-- The message of `new TestTimeoutError(testName, timeout)`. -/
def timeoutMessage (testName : String) (timeout : Nat) : String :=
  "Test \"" ++ testName ++ "\" timed out after " ++ toString timeout ++ "ms"

/-- `executeTest(name, fn)` from lib/mcp-test-framework-advanced-v2.js:
race the function against a timeout; the function's settlement wins when
it lands strictly before the timer fires, otherwise the TestTimeoutError
rejects the race.  Every outcome is converted into a TestResult with the
observed wall-clock duration; nothing propagates. -/
def executeTest {α : Type} (name : String) (timeout : Nat) (fn : FnOutcome α) : TestResult α :=
  if fn.time < timeout then
    match fn.res with
    | .ok v =>
      { name := name, status := "passed", result := some v, duration := fn.time }
    | .error e =>
      { name := name, status := "failed", error := some e.message, errorCode := e.code,
        errorDetails := e.details, duration := fn.time }
  else
    { name := name, status := "failed",
      error := some (timeoutMessage name timeout),
      errorCode := some "TEST_TIMEOUT",
      errorDetails := some { testName := some name, timeout := some timeout },
      duration := timeout }

/-- The value a discovery listing test resolves with (the summary fields
the claims consult; preview lists are elided). -/
structure ListingVal where
  count : Nat
  note : Option String := none
deriving DecidableEq

/-- The body of the "List Resources" test function in v2's
`runDiscoveryTests`: `client.listResources()` is awaited with no catch, so
any rejection (including a method-not-found one) is the function's
rejection. -/
def listResourcesFn (call : Except MCPTester.MCPErr (List String)) :
    Except MCPTester.MCPErr ListingVal :=
  match call with
  | .error e => .error e
  | .ok rs => .ok { count := rs.length }

/-- The body of the "List Prompts" test function in v2's
`runDiscoveryTests`: same shape as resources, no catch. -/
def listPromptsFn (call : Except MCPTester.MCPErr (List String)) :
    Except MCPTester.MCPErr ListingVal :=
  match call with
  | .error e => .error e
  | .ok ps => .ok { count := ps.length }

/-- One phase of `testServer` as the suite runner sees it: it either
completes, contributing the TestResults it pushed, or throws an unhandled
error after having pushed a partial list (individual test failures are
already absorbed by `executeTest` and appear as `done` entries). -/
inductive PhaseOutcome (α : Type) where
  | done (tests : List (TestResult α))
  | crash (tests : List (TestResult α)) (err : MCPTester.MCPErr)

/-- Sequential phase execution inside the try block of `testServer`: the
first throwing phase aborts all later ones; the TestResults pushed so far
are retained. -/
def runPhases {α : Type} : List (PhaseOutcome α) → List (TestResult α) × Option MCPTester.MCPErr
  | [] => ([], none)
  | .done ts :: rest =>
    let r := runPhases rest
    (ts ++ r.1, r.2)
  | .crash ts e :: _ => (ts, some e)

/-- The suite result record `testServer` builds (the fields the claims
consult: transport tag, overall status, ordered TestResults, top-level
error). -/
structure SuiteRun (α : Type) where
  transport : Option String
  status : String
  tests : List (TestResult α)
  error : Option MCPTester.MCPErr := none
deriving DecidableEq

/-- `testServer` from lib/mcp-test-framework-advanced-v2.js: connect, run
the phases sequentially, set status "passed" only when nothing threw; any
unhandled error sets status "failed" and is stored on the result; the
finally block closes the client exactly when one was obtained.  The second
component counts `client.close()` invocations. -/
def testServer {α : Type} (cfg : MCPTester.TransportConfig)
    (connect : Except MCPTester.MCPErr Session) (phases : List (PhaseOutcome α)) :
    SuiteRun α × Nat :=
  match connect with
  | .error e =>
    ({ transport := cfg.type, status := "failed", tests := [], error := some e }, 0)
  | .ok _ =>
    match runPhases phases with
    | (ts, none) => ({ transport := cfg.type, status := "passed", tests := ts }, 1)
    | (ts, some e) => ({ transport := cfg.type, status := "failed", tests := ts, error := some e }, 1)

/-- The TestResults a phase contributed, whether or not it completed. -/
def phaseTests {α : Type} : PhaseOutcome α → List (TestResult α)
  | .done ts => ts
  | .crash ts _ => ts

/-- Concatenation of the TestResults contributed by a list of phases, in
order. -/
def phasesTests {α : Type} : List (PhaseOutcome α) → List (TestResult α)
  | [] => []
  | p :: rest => phaseTests p ++ phasesTests rest

/-- One per-transport bucket of `getTransportSummary`. -/
structure TransportStats where
  total : Nat
  passed : Nat
  failed : Nat
deriving DecidableEq

/-- Folding one suite result into the per-transport summary object: create
the bucket on first sight, then increment `total` and exactly one of
`passed` / `failed` (any status other than "passed" counts as failed). -/
def bumpTransport {α : Type} (acc : List (Option String × TransportStats)) (r : SuiteRun α) :
    List (Option String × TransportStats) :=
  let inc := fun (s : TransportStats) =>
    if r.status == "passed" then
      { s with total := s.total + 1, passed := s.passed + 1 }
    else
      { s with total := s.total + 1, failed := s.failed + 1 }
  if acc.any (fun p => p.1 == r.transport) then
    acc.map (fun p => if p.1 == r.transport then (p.1, inc p.2) else p)
  else
    acc ++ [(r.transport, inc { total := 0, passed := 0, failed := 0 })]

/-- `getTransportSummary` from lib/mcp-test-framework-advanced-v2.js,
keyed by the raw `result.transport` tag in insertion order. -/
def getTransportSummary {α : Type} (results : List (SuiteRun α)) :
    List (Option String × TransportStats) :=
  results.foldl bumpTransport []

/-- `summary.passed` of `generateReport`. -/
def summaryPassed {α : Type} (results : List (SuiteRun α)) : Nat :=
  (results.filter (fun r => r.status == "passed")).length

/-- `summary.failed` of `generateReport`. -/
def summaryFailed {α : Type} (results : List (SuiteRun α)) : Nat :=
  (results.filter (fun r => r.status == "failed")).length

/-- `summary.totalTests` of `generateReport`. -/
def summaryTotalTests {α : Type} (results : List (SuiteRun α)) : Nat :=
  (results.map (fun r => r.tests.length)).sum

/-- `summary.passedTests` of `generateReport`. -/
def summaryPassedTests {α : Type} (results : List (SuiteRun α)) : Nat :=
  (results.map (fun r => (r.tests.filter (fun t => t.status == "passed")).length)).sum

/-- `summary.failedTests` of `generateReport`. -/
def summaryFailedTests {α : Type} (results : List (SuiteRun α)) : Nat :=
  (results.map (fun r => (r.tests.filter (fun t => t.status == "failed")).length)).sum

/-- Is a header key sensitive per v2's `sanitizeConfig`: its lowercasing
contains "auth", "token" or "key". -/
def sensitiveKey (k : String) : Bool :=
  MCPTester.jsIncludes (MCPTester.lowerStr k) "auth" ||
  MCPTester.jsIncludes (MCPTester.lowerStr k) "token" ||
  MCPTester.jsIncludes (MCPTester.lowerStr k) "key"

/-- `sanitizeConfig` from lib/mcp-test-framework-advanced-v2.js: spread
the config, rebuild the headers object replacing each sensitive key's
value by "[REDACTED]", and redact a truthy top-level `auth` field. -/
def sanitizeConfig (c : MCPTester.TransportConfig) : MCPTester.TransportConfig :=
  let c1 :=
    match c.headers with
    | none => c
    | some hs =>
      { c with headers := some (hs.map (fun (p : String × String) =>
          (p.1, if sensitiveKey p.1 then "[REDACTED]" else p.2))) }
  match c1.auth with
  | some a => if a != "" then { c1 with auth := some "[REDACTED]" } else c1
  | none => c1

end V2

namespace V1

/-- One recorded TestResult of the root framework
(mcp-test-framework-advanced.js): its `executeTest` only sets name,
status, result / error and duration. -/
structure TestResult (α : Type) where
  name : String
  status : String
  result : Option α := none
  error : Option String := none
  duration : Nat

/-- `executeTest` from mcp-test-framework-advanced.js: same race as v2 but
the timeout rejects with a plain `Error('Test timeout')` and no error
metadata beyond the message is recorded. -/
def executeTest {α : Type} (name : String) (timeout : Nat) (fn : V2.FnOutcome α) : TestResult α :=
  if fn.time < timeout then
    match fn.res with
    | .ok v => { name := name, status := "passed", result := some v, duration := fn.time }
    | .error e => { name := name, status := "failed", error := some e.message, duration := fn.time }
  else
    { name := name, status := "failed", error := some "Test timeout", duration := timeout }

/-- The body of the "List Resources" test function in the root framework's
`runDiscoveryTests`: the listing call is wrapped in a try/catch, and a
rejection whose message contains "Method not found" resolves gracefully
with count 0 and an explanatory note; any other rejection is rethrown. -/
def listResourcesFn (call : Except MCPTester.MCPErr (List String)) :
    Except MCPTester.MCPErr V2.ListingVal :=
  match call with
  | .ok rs => .ok { count := rs.length }
  | .error e =>
    if MCPTester.jsIncludes e.message "Method not found" then
      .ok { count := 0, note := some "Server does not support resources" }
    else
      .error e

/-- The body of the "List Prompts" test function in the root framework's
`runDiscoveryTests` (same graceful method-not-found handling). -/
def listPromptsFn (call : Except MCPTester.MCPErr (List String)) :
    Except MCPTester.MCPErr V2.ListingVal :=
  match call with
  | .ok ps => .ok { count := ps.length }
  | .error e =>
    if MCPTester.jsIncludes e.message "Method not found" then
      .ok { count := 0, note := some "Server does not support prompts" }
    else
      .error e

/-- `sanitizeConfig` from mcp-test-framework-advanced.js: only header keys
whose lowercasing contains "auth" are replaced (by "***"), and a truthy
top-level `auth` field is replaced by "***". -/
def sanitizeConfig (c : MCPTester.TransportConfig) : MCPTester.TransportConfig :=
  let c1 :=
    match c.headers with
    | none => c
    | some hs =>
      { c with headers := some (hs.map (fun (p : String × String) =>
          (p.1, if MCPTester.jsIncludes (MCPTester.lowerStr p.1) "auth" then "***" else p.2))) }
  match c1.auth with
  | some a => if a != "" then { c1 with auth := some "***" } else c1
  | none => c1

end V1

namespace AutoDetect

/-- The DetectionResult object produced by `detectTransport`. -/
structure DetectionResult where
  transport : String
  confidence : Nat
  reason : String
deriving DecidableEq

/-- The probe HTTP response as the detector reads it: status code, the
two headers it consults (Node lowercases header names; an absent header
reads as undefined) and the collected body text.  `parsedErrMessage` is
the outcome of the platform `JSON.parse(body)` followed by the truthy
checks on `json.error` and `json.error.message`: it is `some m` exactly
when the body parses as JSON carrying a truthy `error.message` `m`. -/
structure ProbeResponse where
  statusCode : Nat
  xMcpTransport : Option String := none
  contentType : Option String := none
  body : String
  parsedErrMessage : Option String := none

/-- How one probe request settles: a response, a request-level error, a
response-stream error, or the 5-second timeout. -/
inductive ProbeOutcome where
  | response (r : ProbeResponse)
  | reqError (msg : String)
  | resError
  | timeout

/-- The SSE-indicator test opening the classification chain in
`detectTransport`: the explicit sse transport header, or
"text/event-stream" occurring in the body or the content type
(`headers['content-type'] || ''`). -/
def sseIndicator (r : ProbeResponse) : Bool :=
  r.xMcpTransport == some "sse" ||
  MCPTester.jsIncludes r.body "text/event-stream" ||
  MCPTester.jsIncludes (r.contentType.getD "") "text/event-stream"

/-- Classification of a completed probe response, following the source's
if/return chain in order: SSE indicators (with the 406 / "Not Acceptable"
rejection check promoting to streamableHttp at confidence 90), explicit
StreamableHTTP indicators, the JSON-RPC error body mentioning
event-stream, then the default. -/
def detectFromResponse (r : ProbeResponse) : DetectionResult :=
  if sseIndicator r then
    if r.statusCode == 406 || MCPTester.jsIncludes r.body "Not Acceptable" then
      { transport := "streamableHttp", confidence := 90,
        reason := "Server requires event-stream but responds with 406, typical of StreamableHTTP" }
    else
      { transport := "sse", confidence := 80, reason := "Server indicates SSE support" }
  else if r.xMcpTransport == some "streamablehttp" ||
          r.xMcpTransport == some "streamable-http" ||
          (r.statusCode == 406 && MCPTester.jsIncludes r.body "event-stream") then
    { transport := "streamableHttp", confidence := 95,
      reason := "Server shows StreamableHTTP characteristics" }
  else
    let viaJsonErr :=
      if MCPTester.jsIncludes r.body "jsonrpc" && MCPTester.jsIncludes r.body "error" then
        match r.parsedErrMessage with
        | some m =>
          if MCPTester.jsIncludes m "event-stream" then
            some { transport := "streamableHttp", confidence := 85,
                   reason := "JSON-RPC error mentions event-stream" : DetectionResult }
          else none
        | none => none
      else none
    match viaJsonErr with
    | some d => d
    | none =>
      { transport := "streamableHttp", confidence := 50,
        reason := "HTTP endpoint, assuming StreamableHTTP" }

/-- `detectTransport` from lib/auto-detect-transport.js.  `urlPrelude`
models the synchronous prelude before the returned Promise is entered:
`new URL(url)` (and `client.request`) throw for a malformed URL or an
unsupported scheme, and because that throw happens outside the Promise
executor and outside any try/catch, the async function rejects with it.
Once the request is issued, every settlement path resolves: request
errors, response-stream errors and the timeout each resolve to an
"unknown" result with confidence 0 and the reason recorded. -/
def detectTransport (urlPrelude : Except String Unit) (probe : ProbeOutcome) :
    Except String DetectionResult :=
  match urlPrelude with
  | .error e => .error e
  | .ok _ =>
    .ok (match probe with
      | .response r => detectFromResponse r
      | .reqError m => { transport := "unknown", confidence := 0, reason := "Connection error: " ++ m }
      | .resError => { transport := "unknown", confidence := 0, reason := "Failed to connect to server" }
      | .timeout => { transport := "unknown", confidence := 0, reason := "Connection timeout" })

end AutoDetect

/-- Concrete sample run used to witness the report-summary claim: one
passed stdio suite (one passed and one failed test) and one failed sse
suite (one failed test). -/
def sampleResults : List (V2.SuiteRun V2.ListingVal) :=
  [{ transport := some "stdio", status := "passed",
     tests := [{ name := "List Tools", status := "passed", duration := 2 },
               { name := "List Resources", status := "failed", duration := 1 }] },
   { transport := some "sse", status := "failed",
     tests := [{ name := "List Tools", status := "failed", duration := 4 }] }]

/-! ### Helper lemmas -/

/-- When every attempt in the window fails, the retry loop performs
exactly `rem` attempts and raises the exhaustion error built from the last
attempt's message. -/
theorem connectLoop_all_fail (tt : String) (cfg : TransportConfig) (env : Nat → V2.AttemptEnv)
    (total : Nat) :
    ∀ (rem : Nat), 0 < rem → ∀ (i : Nat) (lastMsg : Option String),
    (∀ j, j < rem → ∃ e, V2.attemptOnce tt cfg (env (i + j)) = .error e) →
    ∀ e, V2.attemptOnce tt cfg (env (i + (rem - 1))) = .error e →
    V2.connectLoop total tt cfg env i rem lastMsg =
      (rem, .error (V2.connectExhaustedErr total tt (some e.message))) := by
  intro rem
  induction rem with
  | zero => intro h; exact absurd h (by omega)
  | succ n ih =>
    intro _ i lastMsg hfail e hlast
    obtain ⟨e0, he0⟩ := hfail 0 (by omega)
    rw [Nat.add_zero] at he0
    rw [V2.connectLoop, he0]
    cases n with
    | zero =>
      have : e0 = e := by
        rw [Nat.add_zero] at hlast
        rw [he0] at hlast
        exact (Except.error.injEq _ _).mp hlast
      subst this
      rfl
    | succ m =>
      have hrec := ih (by omega) (i + 1) (some e0.message)
        (by
          intro j hj
          have := hfail (j + 1) (by omega)
          rwa [show i + (j + 1) = i + 1 + j by omega] at this)
        e (by rwa [show i + 1 + (m + 1 - 1) = i + (m + 1 + 1 - 1) by omega])
      simp only [hrec]

/-! ### Claim theorems -/

/-- Claim C2 counterexample: the descriptor with transport tag "stdio" and
no command makes Factory construction fail with INVALID_CONFIG, yet under
retry policy retryAttempts = 2 the Connection Manager retries it and
performs 3 attempts, and the suite-level failure is the CONNECTION_ERROR
wrapper (the invalid-configuration error only survives as the
`lastError` detail), contradicting "fails immediately, never retried,
surfaced as the suite's top-level failure". -/
theorem invalid_config_retried_counterexample :
    V2.createTransport { type := some "stdio" } =
      .error (mcpTestErr "stdio transport requires \"command\" parameter" "INVALID_CONFIG") ∧
    V2.connectToServer 2 { type := some "stdio" }
        (fun _ => { connect := .ok (), listTools := .ok [] }) =
      (3, .error
        { name := "ConnectionError",
          message := "Failed to connect after 3 attempts",
          code := some "CONNECTION_ERROR",
          details := some { transport := some "stdio",
                            lastError := some "stdio transport requires \"command\" parameter" } }) :=
  ⟨rfl, rfl⟩

/-- Claim C2 (amended): a TransportDescriptor rejected by the Factory
(missing required field or unknown tag) makes every attempt of the retry
loop fail with that same error; the Connection Manager performs
retryAttempts + 1 attempts and surfaces a connection error whose
`lastError` detail carries the invalid-configuration message. -/
theorem invalid_config_exhausts_retries :
    ∀ (r : Nat) (cfg : TransportConfig) (env : Nat → V2.AttemptEnv) (e : MCPErr),
    V2.createTransport cfg = .error e →
    V2.connectToServer r cfg env =
      (r + 1, .error (V2.connectExhaustedErr (r + 1) (V2.transportTypeLabel cfg) (some e.message))) := by
  intro r cfg env e hcfg
  have hatt : ∀ i, V2.attemptOnce (V2.transportTypeLabel cfg) cfg (env i) = .error e := by
    intro i
    simp only [V2.attemptOnce, hcfg]
  have h := connectLoop_all_fail (V2.transportTypeLabel cfg) cfg env (r + 1) (r + 1)
    (by omega) 0 none (fun j _ => ⟨e, hatt (0 + j)⟩) e (hatt (0 + (r + 1 - 1)))
  exact h

/-- Witness for the amended C2 theorem at a concrete sse descriptor with
no url and retryAttempts = 1. -/
theorem invalid_config_exhausts_retries_witness :
    V2.connectToServer 1 { type := some "sse" }
        (fun _ => { connect := .ok (), listTools := .ok [] }) =
      (2, .error (V2.connectExhaustedErr 2 "sse"
        (some "SSE transport requires \"url\" parameter"))) := by
  have h := invalid_config_exhausts_retries 1 { type := some "sse" }
    (fun _ => { connect := .ok (), listTools := .ok [] })
    (mcpTestErr "SSE transport requires \"url\" parameter" "INVALID_CONFIG") rfl
  simpa using h

/-- Claim C3: with retry policy retryAttempts = r (max attempts
N = r + 1 ≥ 1), if every attempt fails then connectToServer performs
exactly N attempts (the connectionAttempts counter delta is N) and raises
the ConnectionError whose details carry the transport label and the last
attempt's underlying message; moreover a transport-level connect success
whose liveness listTools call fails is itself a ConnectionError attempt
failure (and is therefore retried like any other). -/
theorem connectToServer_exhausts_attempts :
    (∀ (r : Nat) (cfg : TransportConfig) (env : Nat → V2.AttemptEnv),
      (∀ i, ∃ e, V2.attemptOnce (V2.transportTypeLabel cfg) cfg (env i) = .error e) →
      (V2.connectToServer r cfg env).1 = r + 1 ∧
      (∀ e, V2.attemptOnce (V2.transportTypeLabel cfg) cfg (env r) = .error e →
        (V2.connectToServer r cfg env).2 =
          .error (V2.connectExhaustedErr (r + 1) (V2.transportTypeLabel cfg) (some e.message)))) ∧
    (∀ (tt : String) (cfg : TransportConfig) (e : V2.AttemptEnv) (t : Transport) (ve : MCPErr),
      V2.createTransport cfg = .ok t → e.connect = .ok () → e.listTools = .error ve →
      V2.attemptOnce tt cfg e = .error (V2.verifyFailedErr tt ve.message)) := by
  constructor
  · intro r cfg env hall
    obtain ⟨elast, helast⟩ := hall r
    have h := connectLoop_all_fail (V2.transportTypeLabel cfg) cfg env (r + 1) (r + 1)
      (by omega) 0 none (fun j _ => hall (0 + j)) elast (by simpa using helast)
    constructor
    · show (V2.connectLoop (r + 1) (V2.transportTypeLabel cfg) cfg env 0 (r + 1) none).1 = r + 1
      rw [h]
    · intro e he
      have : e = elast := by
        rw [helast] at he
        exact ((Except.error.injEq _ _).mp he).symm
      subst this
      show (V2.connectLoop (r + 1) (V2.transportTypeLabel cfg) cfg env 0 (r + 1) none).2 = _
      rw [h]
  · intro tt cfg e t ve hok hconn hlt
    simp only [V2.attemptOnce, hok, hconn, hlt]

/-- Witness for C3 at a permanently unreachable stdio target with
retryAttempts = 1: exactly 2 attempts and the final ConnectionError
carries label "stdio" and the last message. -/
theorem connectToServer_exhausts_attempts_witness :
    (V2.connectToServer 1 { type := some "stdio", command := some "node" }
        (fun _ => { connect := .error (plainErr "spawn ENOENT"), listTools := .ok [] })).1 = 2 ∧
    (V2.connectToServer 1 { type := some "stdio", command := some "node" }
        (fun _ => { connect := .error (plainErr "spawn ENOENT"), listTools := .ok [] })).2 =
      .error (V2.connectExhaustedErr 2 "stdio" (some "spawn ENOENT")) := by
  have h := connectToServer_exhausts_attempts.1 1
    { type := some "stdio", command := some "node" }
    (fun _ => { connect := .error (plainErr "spawn ENOENT"), listTools := .ok [] })
    (fun _ => ⟨plainErr "spawn ENOENT", rfl⟩)
  exact ⟨h.1, by simpa using h.2 (plainErr "spawn ENOENT") rfl⟩

/-- Claim C5: executeTest always returns a TestResult (no error
propagates), recording the wall-clock duration of whichever race
participant settled first; when the test function does not complete
within the timeout the recorded result is failed with the distinct
TEST_TIMEOUT error carrying the test name and the configured duration;
and a test function that rejects in time is likewise converted into a
failed TestResult rather than propagating. -/
theorem executeTest_timeout_spec :
    ∀ {α : Type} (name : String) (timeout : Nat) (fn : V2.FnOutcome α),
    (V2.executeTest name timeout fn).duration = min fn.time timeout ∧
    ((V2.executeTest name timeout fn).status = "passed" ∨
      (V2.executeTest name timeout fn).status = "failed") ∧
    (timeout ≤ fn.time →
      (V2.executeTest name timeout fn).status = "failed" ∧
      (V2.executeTest name timeout fn).error = some (V2.timeoutMessage name timeout) ∧
      (V2.executeTest name timeout fn).errorCode = some "TEST_TIMEOUT" ∧
      (V2.executeTest name timeout fn).errorDetails =
        some { testName := some name, timeout := some timeout } ∧
      (V2.executeTest name timeout fn).duration = timeout) ∧
    (∀ e, fn.res = .error e → fn.time < timeout →
      (V2.executeTest name timeout fn).status = "failed" ∧
      (V2.executeTest name timeout fn).error = some e.message) := by
  intro α name timeout fn
  by_cases h : fn.time < timeout
  · have hmin : min fn.time timeout = fn.time := Nat.min_eq_left (Nat.le_of_lt h)
    cases hres : fn.res with
    | ok v =>
      unfold V2.executeTest
      rw [if_pos h, hres]
      refine ⟨by rw [hmin], Or.inl rfl, fun hto => absurd h (Nat.not_lt.mpr hto), ?_⟩
      intro e he _
      exact Except.noConfusion he
    | error e0 =>
      unfold V2.executeTest
      rw [if_pos h, hres]
      refine ⟨by rw [hmin], Or.inr rfl, fun hto => absurd h (Nat.not_lt.mpr hto), ?_⟩
      intro e he _
      obtain rfl : e0 = e := (Except.error.injEq _ _).mp he
      exact ⟨rfl, rfl⟩
  · have hmin : min fn.time timeout = timeout := Nat.min_eq_right (Nat.le_of_not_lt h)
    unfold V2.executeTest
    rw [if_neg h]
    exact ⟨by rw [hmin], Or.inr rfl, fun _ => ⟨rfl, rfl, rfl, rfl, rfl⟩,
      fun e he hlt => absurd hlt h⟩

/-- Witness for C5: a test settling at 50000ms against a 30000ms timeout
is recorded failed with the TEST_TIMEOUT error, and a test rejecting at
10ms is converted to a failed TestResult. -/
theorem executeTest_timeout_spec_witness :
    (V2.executeTest (α := Unit) "Slow Test" 30000 { time := 50000, res := .ok () }).status = "failed" ∧
    (V2.executeTest (α := Unit) "Slow Test" 30000 { time := 50000, res := .ok () }).errorCode =
      some "TEST_TIMEOUT" ∧
    (V2.executeTest (α := Unit) "Slow Test" 30000 { time := 50000, res := .ok () }).error =
      some "Test \"Slow Test\" timed out after 30000ms" ∧
    (V2.executeTest (α := Unit) "Broken Test" 30000
      { time := 10, res := .error (plainErr "boom") }).status = "failed" := by
  have h1 := (executeTest_timeout_spec (α := Unit) "Slow Test" 30000
    { time := 50000, res := .ok () }).2.2.1 (by decide)
  have h2 := (executeTest_timeout_spec (α := Unit) "Broken Test" 30000
    { time := 10, res := .error (plainErr "boom") }).2.2.2 (plainErr "boom") rfl (by decide)
  exact ⟨h1.1, h1.2.2.1, by simpa [V2.timeoutMessage] using h1.2.1, h2.1⟩

/-- Claim C1 (code divergence): in the v2 framework's Discovery phase a
"Method not found" rejection of listResources / listPrompts is NOT caught,
so the recorded TestResult is failed with that message; the root
framework's Discovery phase (and the repository documentation) treat the
same rejection gracefully as a passed TestResult with count 0 and an
explanatory note. -/
theorem discovery_method_not_found_divergence :
    (V2.executeTest "List Resources" 30000
      { time := 3, res := V2.listResourcesFn (.error (plainErr "MCP error -32601: Method not found")) }).status = "failed" ∧
    (V2.executeTest "List Resources" 30000
      { time := 3, res := V2.listResourcesFn (.error (plainErr "MCP error -32601: Method not found")) }).error =
      some "MCP error -32601: Method not found" ∧
    (V2.executeTest "List Prompts" 30000
      { time := 3, res := V2.listPromptsFn (.error (plainErr "MCP error -32601: Method not found")) }).status = "failed" ∧
    (V1.executeTest "List Resources" 30000
      { time := 3, res := V1.listResourcesFn (.error (plainErr "MCP error -32601: Method not found")) }).status = "passed" ∧
    (V1.executeTest "List Resources" 30000
      { time := 3, res := V1.listResourcesFn (.error (plainErr "MCP error -32601: Method not found")) }).result =
      some { count := 0, note := some "Server does not support resources" } ∧
    (V1.executeTest "List Prompts" 30000
      { time := 3, res := V1.listPromptsFn (.error (plainErr "MCP error -32601: Method not found")) }).status = "passed" ∧
    (V1.executeTest "List Prompts" 30000
      { time := 3, res := V1.listPromptsFn (.error (plainErr "MCP error -32601: Method not found")) }).result =
      some { count := 0, note := some "Server does not support prompts" } := by
  refine ⟨?_, ?_, ?_, ?_, ?_, ?_, ?_⟩ <;> rfl

/-- Sequential phase execution stops at the first throwing phase: the
results are the completed phases' TestResults followed by the crashing
phase's partial results, the error is recorded, and later phases are
never consulted. -/
theorem runPhases_first_crash {α : Type} :
    ∀ (pre : List (V2.PhaseOutcome α)) (ts : List (V2.TestResult α)) (e : MCPErr)
      (post : List (V2.PhaseOutcome α)),
    (∀ p ∈ pre, ∃ l, p = V2.PhaseOutcome.done l) →
    V2.runPhases (pre ++ V2.PhaseOutcome.crash ts e :: post) =
      (V2.phasesTests pre ++ ts, some e) := by
  intro pre
  induction pre with
  | nil =>
    intro ts e post _
    simp [V2.runPhases, V2.phasesTests]
  | cons p rest ih =>
    intro ts e post hall
    obtain ⟨l, rfl⟩ := hall p (by simp)
    have hrest := ih ts e post (fun q hq => hall q (by simp [hq]))
    simp [V2.runPhases, V2.phasesTests, V2.phaseTests, hrest]

/-- Claim C6: once a Session is established, testServer invokes
client.close() exactly once on every exit path; an unhandled error in a
phase aborts all remaining phases (the suite result does not depend on
them), sets the overall status to "failed", records the error, and
retains the ordered TestResults collected up to that point. -/
theorem testServer_cleanup_and_abort :
    (∀ (α : Type) (cfg : TransportConfig) (s : V2.Session) (phases : List (V2.PhaseOutcome α)),
      (V2.testServer cfg (.ok s) phases).2 = 1) ∧
    (∀ (α : Type) (cfg : TransportConfig) (s : V2.Session) (pre : List (V2.PhaseOutcome α))
       (ts : List (V2.TestResult α)) (e : MCPErr) (post post' : List (V2.PhaseOutcome α)),
      (∀ p ∈ pre, ∃ l, p = V2.PhaseOutcome.done l) →
      V2.testServer cfg (.ok s) (pre ++ V2.PhaseOutcome.crash ts e :: post) =
        V2.testServer cfg (.ok s) (pre ++ V2.PhaseOutcome.crash ts e :: post') ∧
      (V2.testServer cfg (.ok s) (pre ++ V2.PhaseOutcome.crash ts e :: post)).1.status = "failed" ∧
      (V2.testServer cfg (.ok s) (pre ++ V2.PhaseOutcome.crash ts e :: post)).1.tests =
        V2.phasesTests pre ++ ts ∧
      (V2.testServer cfg (.ok s) (pre ++ V2.PhaseOutcome.crash ts e :: post)).1.error = some e) := by
  constructor
  · intro α cfg s phases
    unfold V2.testServer
    rcases hr : V2.runPhases phases with ⟨ts, err⟩
    cases err <;> simp [hr]
  · intro α cfg s pre ts e post post' hall
    have h1 := runPhases_first_crash pre ts e post hall
    have h2 := runPhases_first_crash pre ts e post' hall
    unfold V2.testServer
    rw [h1, h2]
    exact ⟨rfl, rfl, rfl, rfl⟩

/-- Witness for C6 at a concrete run: one completed discovery-style phase,
then a crashing phase; the session is closed once and the suite fails
with the completed phase's TestResults retained. -/
theorem testServer_cleanup_and_abort_witness :
    (V2.testServer (α := V2.ListingVal) { type := some "stdio", command := some "node" }
      (.ok { transport := .stdioT "node" [] }) []).2 = 1 ∧
    (V2.testServer (α := V2.ListingVal) { type := some "stdio", command := some "node" }
      (.ok { transport := .stdioT "node" [] })
      [V2.PhaseOutcome.done [{ name := "List Tools", status := "passed", duration := 2 }],
       V2.PhaseOutcome.crash [] (plainErr "iteration failure"),
       V2.PhaseOutcome.done [{ name := "late", status := "passed", duration := 1 }]]).1.status =
      "failed" ∧
    (V2.testServer (α := V2.ListingVal) { type := some "stdio", command := some "node" }
      (.ok { transport := .stdioT "node" [] })
      [V2.PhaseOutcome.done [{ name := "List Tools", status := "passed", duration := 2 }],
       V2.PhaseOutcome.crash [] (plainErr "iteration failure"),
       V2.PhaseOutcome.done [{ name := "late", status := "passed", duration := 1 }]]).1.tests =
      [{ name := "List Tools", status := "passed", duration := 2 }] := by
  have hc := testServer_cleanup_and_abort.1 V2.ListingVal
    { type := some "stdio", command := some "node" } { transport := .stdioT "node" [] } []
  have h := testServer_cleanup_and_abort.2 V2.ListingVal
    { type := some "stdio", command := some "node" } { transport := .stdioT "node" [] }
    [V2.PhaseOutcome.done [{ name := "List Tools", status := "passed", duration := 2 }]]
    [] (plainErr "iteration failure")
    [V2.PhaseOutcome.done [{ name := "late", status := "passed", duration := 1 }]] []
    (by
      intro p hp
      simp only [List.mem_singleton] at hp
      exact ⟨_, hp⟩)
  refine ⟨hc, h.2.1, ?_⟩
  have ht := h.2.2.1
  simpa [V2.phasesTests, V2.phaseTests] using ht

/-- Splitting a list by a two-valued status attribute: when every element
is "passed" or "failed", the two filters partition the list. -/
theorem statusSplit {β : Type} (f : β → String) :
    ∀ (l : List β), (∀ x ∈ l, f x = "passed" ∨ f x = "failed") →
    l.length = (l.filter (fun x => f x == "passed")).length +
      (l.filter (fun x => f x == "failed")).length := by
  intro l
  induction l with
  | nil => intro _; rfl
  | cons a rest ih =>
    intro hall
    have hrest := ih (fun x hx => hall x (by simp [hx]))
    rcases hall a (by simp) with ha | ha <;>
      simp [List.filter_cons, ha, hrest] <;> omega

/-- `bumpTransport` preserves the per-bucket accounting invariant
total = passed + failed. -/
theorem bumpTransport_inv {α : Type} (acc : List (Option String × V2.TransportStats))
    (r : V2.SuiteRun α)
    (hacc : ∀ q ∈ acc, q.2.total = q.2.passed + q.2.failed) :
    ∀ q ∈ V2.bumpTransport acc r, q.2.total = q.2.passed + q.2.failed := by
  intro q hq
  unfold V2.bumpTransport at hq
  by_cases hmem : acc.any (fun p => p.1 == r.transport)
  · rw [if_pos hmem] at hq
    obtain ⟨p, hp, hpq⟩ := List.mem_map.mp hq
    by_cases hkey : p.1 == r.transport
    · rw [if_pos hkey] at hpq
      subst hpq
      have := hacc p hp
      by_cases hst : r.status == "passed" <;> simp [hst] <;> omega
    · rw [if_neg hkey] at hpq
      subst hpq
      exact hacc p hp
  · rw [if_neg hmem] at hq
    rcases List.mem_append.mp hq with h | h
    · exact hacc q h
    · simp only [List.mem_singleton] at h
      subst h
      by_cases hst : r.status == "passed" <;> simp [hst]

/-- Folding any suite-result list into the per-transport summary keeps
every bucket's accounting invariant. -/
theorem foldTransport_inv {α : Type} :
    ∀ (results : List (V2.SuiteRun α)) (acc : List (Option String × V2.TransportStats)),
    (∀ q ∈ acc, q.2.total = q.2.passed + q.2.failed) →
    ∀ q ∈ results.foldl V2.bumpTransport acc, q.2.total = q.2.passed + q.2.failed := by
  intro results
  induction results with
  | nil => intro acc hacc; exact hacc
  | cons r rest ih =>
    intro acc hacc
    exact ih (V2.bumpTransport acc r) (bumpTransport_inv acc r hacc)

/-- Claim C10: executeTest and testServer only ever record status "passed"
or "failed", and for any result list whose statuses lie in that two-valued
range the generated report's summary is consistent: the suite totals and
the individual-test totals each split as passed + failed, and every
per-transport bucket satisfies total = passed + failed. -/
theorem report_summary_consistency :
    (∀ (α : Type) (name : String) (timeout : Nat) (fn : V2.FnOutcome α),
      (V2.executeTest name timeout fn).status = "passed" ∨
        (V2.executeTest name timeout fn).status = "failed") ∧
    (∀ (α : Type) (cfg : TransportConfig) (connect : Except MCPErr V2.Session)
       (phases : List (V2.PhaseOutcome α)),
      (V2.testServer cfg connect phases).1.status = "passed" ∨
        (V2.testServer cfg connect phases).1.status = "failed") ∧
    (∀ (α : Type) (results : List (V2.SuiteRun α)),
      (∀ r ∈ results, r.status = "passed" ∨ r.status = "failed") →
      (∀ r ∈ results, ∀ t ∈ r.tests, t.status = "passed" ∨ t.status = "failed") →
      results.length = V2.summaryPassed results + V2.summaryFailed results ∧
      V2.summaryTotalTests results =
        V2.summaryPassedTests results + V2.summaryFailedTests results ∧
      (∀ q ∈ V2.getTransportSummary results, q.2.total = q.2.passed + q.2.failed)) := by
  refine ⟨?_, ?_, ?_⟩
  · intro α name timeout fn
    unfold V2.executeTest
    by_cases h : fn.time < timeout
    · rw [if_pos h]
      cases fn.res with
      | ok v => exact Or.inl rfl
      | error e => exact Or.inr rfl
    · rw [if_neg h]
      exact Or.inr rfl
  · intro α cfg connect phases
    unfold V2.testServer
    cases connect with
    | error e => exact Or.inr rfl
    | ok s =>
      rcases hr : V2.runPhases phases with ⟨ts, err⟩
      cases err <;> simp [hr]
  · intro α results hsuite htests
    refine ⟨?_, ?_, ?_⟩
    · show results.length = (results.filter (fun r => r.status == "passed")).length +
        (results.filter (fun r => r.status == "failed")).length
      exact statusSplit (fun r => r.status) results hsuite
    · unfold V2.summaryTotalTests V2.summaryPassedTests V2.summaryFailedTests
      induction results with
      | nil => rfl
      | cons r rest ih =>
        have hr : r.tests.length =
            (r.tests.filter (fun t => t.status == "passed")).length +
            (r.tests.filter (fun t => t.status == "failed")).length :=
          statusSplit (fun t => t.status) r.tests (htests r (by simp))
        have hrest := ih (fun x hx => hsuite x (by simp [hx]))
          (fun x hx => htests x (by simp [hx]))
        simp only [List.map_cons, List.sum_cons]
        omega
    · exact foldTransport_inv results [] (by intro q hq; cases hq)

/-- Witness for C10 on a concrete two-suite run (one passed stdio suite
with one passed and one failed test, one failed sse suite with one failed
test). -/
theorem report_summary_consistency_witness :
    sampleResults.length = V2.summaryPassed sampleResults + V2.summaryFailed sampleResults ∧
    V2.summaryTotalTests sampleResults =
      V2.summaryPassedTests sampleResults + V2.summaryFailedTests sampleResults := by
  have h := report_summary_consistency.2.2 V2.ListingVal sampleResults
    (by decide) (by decide)
  exact ⟨h.1, h.2.1⟩

/-- Claim C7 counterexample: a URL the platform URL constructor rejects
(for example the string "not-a-url", for which `new URL` throws
TypeError ERR_INVALID_URL) makes detectTransport reject with that error
instead of resolving to a DetectionResult, because the throw happens
before the promise executor and outside any try/catch. -/
theorem detectTransport_raises_counterexample :
    AutoDetect.detectTransport (.error "TypeError: Invalid URL")
      AutoDetect.ProbeOutcome.timeout = .error "TypeError: Invalid URL" :=
  rfl

/-- Claim C7 (amended): for every URL the platform URL constructor
accepts, detectTransport never raises: the probe promise resolves to a
DetectionResult on every settlement, and every network failure, stream
error or timeout resolves to transport "unknown" with confidence 0 and a
nonempty recorded reason. -/
theorem detectTransport_resolves_spec :
    ∀ (probe : AutoDetect.ProbeOutcome),
    (∃ d, AutoDetect.detectTransport (.ok ()) probe = .ok d) ∧
    (∀ m, probe = .reqError m →
      AutoDetect.detectTransport (.ok ()) probe =
        .ok { transport := "unknown", confidence := 0, reason := "Connection error: " ++ m }) ∧
    (probe = .timeout →
      AutoDetect.detectTransport (.ok ()) probe =
        .ok { transport := "unknown", confidence := 0, reason := "Connection timeout" }) ∧
    (probe = .resError →
      AutoDetect.detectTransport (.ok ()) probe =
        .ok { transport := "unknown", confidence := 0, reason := "Failed to connect to server" }) := by
  intro probe
  refine ⟨?_, ?_, ?_, ?_⟩
  · cases probe with
    | response r => exact ⟨AutoDetect.detectFromResponse r, rfl⟩
    | reqError m => exact ⟨_, rfl⟩
    | resError => exact ⟨_, rfl⟩
    | timeout => exact ⟨_, rfl⟩
  · intro m h
    subst h
    rfl
  · intro h
    subst h
    rfl
  · intro h
    subst h
    rfl

/-- Witness for the amended C7 at a concrete refused connection. -/
theorem detectTransport_resolves_spec_witness :
    AutoDetect.detectTransport (.ok ()) (.reqError "connect ECONNREFUSED 127.0.0.1:3000") =
      .ok { transport := "unknown", confidence := 0,
            reason := "Connection error: connect ECONNREFUSED 127.0.0.1:3000" } :=
  (detectTransport_resolves_spec (.reqError "connect ECONNREFUSED 127.0.0.1:3000")).2.1
    "connect ECONNREFUSED 127.0.0.1:3000" rfl

/-- Claim C8: whenever the probe response carries an event-stream
indication (the sse transport header, or "text/event-stream" in the body
or content type) together with a rejection signal (status 406 or a body
containing "Not Acceptable"), the detector classifies the endpoint as
streamableHttp with confidence 90; in particular an HTTP 406 response
whose body mentions "text/event-stream" yields exactly that
DetectionResult. -/
theorem detect_streamableHttp_rejection_spec :
    (∀ r : AutoDetect.ProbeResponse, AutoDetect.sseIndicator r = true →
      (r.statusCode = 406 ∨ jsIncludes r.body "Not Acceptable" = true) →
      AutoDetect.detectFromResponse r =
        { transport := "streamableHttp", confidence := 90,
          reason := "Server requires event-stream but responds with 406, typical of StreamableHTTP" }) ∧
    AutoDetect.detectTransport (.ok ())
        (.response { statusCode := 406,
                     body := "Client must accept text/event-stream for this endpoint" }) =
      .ok { transport := "streamableHttp", confidence := 90,
            reason := "Server requires event-stream but responds with 406, typical of StreamableHTTP" } := by
  constructor
  · intro r hsse hrej
    have hcond : (r.statusCode == 406 || jsIncludes r.body "Not Acceptable") = true := by
      rcases hrej with h | h
      · simp [h]
      · simp [h]
    unfold AutoDetect.detectFromResponse
    rw [if_pos hsse, if_pos hcond]
  · rfl

/-- Witness for C8 at a 200 response whose body signals both the
event-stream capability and the "Not Acceptable" rejection text. -/
theorem detect_streamableHttp_rejection_spec_witness :
    AutoDetect.detectFromResponse
        { statusCode := 200, body := "Not Acceptable: use text/event-stream" } =
      { transport := "streamableHttp", confidence := 90,
        reason := "Server requires event-stream but responds with 406, typical of StreamableHTTP" } :=
  detect_streamableHttp_rejection_spec.1
    { statusCode := 200, body := "Not Acceptable: use text/event-stream" }
    (by decide) (Or.inr (by decide))

/-- Claim C9 counterexample: the root framework's sanitizeConfig leaves a
header whose key case-insensitively contains "token" (here "X-Api-Token",
a sensitive key by the auth/token/key rule) completely unredacted, so the
claim does not hold of every sanitized descriptor the repository
produces. -/
theorem sanitizeConfig_v1_token_counterexample :
    V1.sanitizeConfig
        { type := some "streamableHttp", url := some "http://localhost:3000",
          headers := some [("X-Api-Token", "secret-value")] } =
      { type := some "streamableHttp", url := some "http://localhost:3000",
        headers := some [("X-Api-Token", "secret-value")] } ∧
    jsIncludes (lowerStr "X-Api-Token") "token" = true ∧
    V2.sensitiveKey "X-Api-Token" = true :=
  ⟨rfl, rfl, rfl⟩

/-- Closed form of the v2 sanitizeConfig: headers are rewritten pointwise
by the sensitive-key rule and a truthy auth field is redacted. -/
theorem sanitizeConfig_eq (c : TransportConfig) :
    V2.sanitizeConfig c =
      { c with
        headers := c.headers.map (fun hs => hs.map (fun (p : String × String) =>
          (p.1, if V2.sensitiveKey p.1 then "[REDACTED]" else p.2))),
        auth := match c.auth with
          | some a => if a == "" then some a else some "[REDACTED]"
          | none => none } := by
  obtain ⟨ty, cmd, ar, u, hd, au⟩ := c
  unfold V2.sanitizeConfig
  cases hd <;> cases au <;> simp [Option.map]
  case none.some a =>
    by_cases ha : a = "" <;> simp [ha]
  case some.some hs a =>
    by_cases ha : a = "" <;> simp [ha]

/-- Claim C9 (amended): the v2 framework's sanitizeConfig replaces the
value of every header whose key case-insensitively contains "auth",
"token" or "key" with the fixed placeholder "[REDACTED]", redacts a truthy
top-level auth token field, and leaves every other header value and every
other descriptor field unchanged; the root framework's sanitizeConfig only
redacts headers whose key contains "auth" (to "***"). -/
theorem sanitizeConfig_spec :
    ∀ (c : TransportConfig),
    (V2.sanitizeConfig c).type = c.type ∧
    (V2.sanitizeConfig c).command = c.command ∧
    (V2.sanitizeConfig c).args = c.args ∧
    (V2.sanitizeConfig c).url = c.url ∧
    (∀ hs, c.headers = some hs →
      (V2.sanitizeConfig c).headers =
        some (hs.map (fun (p : String × String) =>
          (p.1, if V2.sensitiveKey p.1 then "[REDACTED]" else p.2)))) ∧
    (∀ hs k v, c.headers = some hs → (k, v) ∈ hs → V2.sensitiveKey k = false →
      ∃ shs, (V2.sanitizeConfig c).headers = some shs ∧ (k, v) ∈ shs) ∧
    (∀ hs k v, c.headers = some hs → (k, v) ∈ hs → V2.sensitiveKey k = true →
      ∃ shs, (V2.sanitizeConfig c).headers = some shs ∧ (k, "[REDACTED]") ∈ shs) ∧
    (∀ a, c.auth = some a → a ≠ "" → (V2.sanitizeConfig c).auth = some "[REDACTED]") := by
  intro c
  rw [sanitizeConfig_eq c]
  have hheaders : ∀ hs, c.headers = some hs →
      (c.headers.map (fun hs => hs.map (fun (p : String × String) =>
          (p.1, if V2.sensitiveKey p.1 then "[REDACTED]" else p.2)))) =
        some (hs.map (fun (p : String × String) =>
          (p.1, if V2.sensitiveKey p.1 then "[REDACTED]" else p.2))) := by
    intro hs hh
    rw [hh]
    rfl
  refine ⟨rfl, rfl, rfl, rfl, hheaders, ?_, ?_, ?_⟩
  · intro hs k v hh hmem hins
    refine ⟨_, hheaders hs hh, ?_⟩
    refine List.mem_map.mpr ⟨(k, v), hmem, ?_⟩
    simp [hins]
  · intro hs k v hh hmem hins
    refine ⟨_, hheaders hs hh, ?_⟩
    refine List.mem_map.mpr ⟨(k, v), hmem, ?_⟩
    simp [hins]
  · intro a hh ha
    rw [hh]
    simp [ha]

/-- Witness for the amended C9 on a descriptor with an Authorization
header, a plain Accept header and a bearer token field. -/
theorem sanitizeConfig_spec_witness :
    (V2.sanitizeConfig
        { type := some "streamableHttp", url := some "http://localhost:3000",
          headers := some [("Authorization", "Bearer abc"), ("Accept", "application/json")],
          auth := some "abc" }).headers =
      some [("Authorization", "[REDACTED]"), ("Accept", "application/json")] ∧
    (V2.sanitizeConfig
        { type := some "streamableHttp", url := some "http://localhost:3000",
          headers := some [("Authorization", "Bearer abc"), ("Accept", "application/json")],
          auth := some "abc" }).auth = some "[REDACTED]" := by
  have h := sanitizeConfig_spec
    { type := some "streamableHttp", url := some "http://localhost:3000",
      headers := some [("Authorization", "Bearer abc"), ("Accept", "application/json")],
      auth := some "abc" }
  refine ⟨?_, h.2.2.2.2.2.2.2 "abc" rfl (by decide)⟩
  have hh := h.2.2.2.2.1 [("Authorization", "Bearer abc"), ("Accept", "application/json")] rfl
  rw [hh]
  decide

/-- A found association-list entry witnesses the key. -/
theorem jsLookup_hasKey (data : List (String × JSVal)) (f : String) (v : JSVal)
    (h : jsLookup data f = some v) : hasKey data f = true := by
  unfold jsLookup at h
  unfold hasKey
  cases hf : data.find? (fun p => p.1 == f) with
  | none => rw [hf] at h; cases h
  | some p =>
    have hp := List.find?_some hf
    have hmem := List.mem_of_find?_eq_some hf
    exact List.any_eq_true.mpr ⟨p, hmem, hp⟩

/-- A present key always has a looked-up value. -/
theorem hasKey_jsLookup (data : List (String × JSVal)) (f : String)
    (h : hasKey data f = true) : ∃ v, jsLookup data f = some v := by
  unfold hasKey at h
  obtain ⟨p, hmem, hp⟩ := List.any_eq_true.mp h
  unfold jsLookup
  cases hf : data.find? (fun q => q.1 == f) with
  | some q => exact ⟨q.2, rfl⟩
  | none =>
    have := List.find?_eq_none.mp hf p hmem
    rw [hp] at this
    cases this rfl

/-- No enum entry ever equals an object value under the includes
comparison (distinct references). -/
theorem jsEnumEq_obj (w : JSVal) (l : List (String × JSVal)) : jsEnumEq w (.obj l) = false := by
  cases w <;> rfl

/-- Hence a whole enum never includes an object value. -/
theorem any_jsEnumEq_obj (vs : List JSVal) (l : List (String × JSVal)) :
    vs.any (fun w => jsEnumEq w (.obj l)) = false := by
  induction vs with
  | nil => rfl
  | cons w ws ih => simp [List.any_cons, jsEnumEq_obj, ih]

/-- The enum check never looks inside an object value: replacing the
nested fields of an object-valued argument leaves every per-property
violation unchanged. -/
theorem enumViolation_obj_irrel (f : String) (inner inner' rest : List (String × JSVal))
    (p : String × PropSchema) :
    enumViolation ((f, .obj inner) :: rest) p = enumViolation ((f, .obj inner') :: rest) p := by
  unfold enumViolation
  cases p.2.enum with
  | none => rfl
  | some vs =>
    dsimp only
    have hkey : hasKey ((f, JSVal.obj inner) :: rest) p.1 =
        hasKey ((f, JSVal.obj inner') :: rest) p.1 := rfl
    by_cases hk : hasKey ((f, JSVal.obj inner) :: rest) p.1 = true
    · rw [if_pos hk, if_pos (hkey ▸ hk)]
      by_cases hf : (f == p.1) = true
      · have h1 : jsLookup ((f, JSVal.obj inner) :: rest) p.1 = some (JSVal.obj inner) := by
          simp [jsLookup, List.find?, hf]
        have h2 : jsLookup ((f, JSVal.obj inner') :: rest) p.1 = some (JSVal.obj inner') := by
          simp [jsLookup, List.find?, hf]
        rw [h1, h2]
        simp [any_jsEnumEq_obj, jsShow]
      · have h1 : jsLookup ((f, JSVal.obj inner) :: rest) p.1 = jsLookup rest p.1 := by
          simp [jsLookup, List.find?, hf]
        have h2 : jsLookup ((f, JSVal.obj inner') :: rest) p.1 = jsLookup rest p.1 := by
          simp [jsLookup, List.find?, hf]
        rw [h1, h2]
    · rw [if_neg hk, if_neg (hkey ▸ hk)]

/-- Claim C4: validateAgainstSchema reports an error for every declared
required field absent from the data, with a suggestion derived from the
field's declared property schema (enum literals first, else a
type-directed placeholder, annotated with the description when present);
reports an error for every supplied value outside a declared enumeration,
naming the value and listing the valid alternatives; is valid exactly when
no errors were produced; checks only the top level (satisfying the
required and enum checks makes it valid, and nested object content is
never inspected); and behaves as specified on the canonical
output/[json, yaml] example. -/
theorem validateAgainstSchema_spec :
    (∀ (data : List (String × JSVal)) (schema : JSONSchema) (req : List String) (f : String),
      schema.required = some req → f ∈ req → hasKey data f = false →
      ("Missing required field: " ++ f) ∈ (validateAgainstSchema data schema).errors) ∧
    (∀ (data : List (String × JSVal)) (schema : JSONSchema) (req : List String)
       (props : List (String × PropSchema)) (f : String) (prop : PropSchema),
      schema.required = some req → schema.properties = some props → f ∈ req →
      hasKey data f = false → propLookup props f = some prop →
      missingSuggestion f prop ∈ (validateAgainstSchema data schema).suggestions) ∧
    (∀ (f : String) (prop : PropSchema) (vs : List JSVal),
      prop.enum = some vs → prop.description = none →
      missingSuggestion f prop = "Add \"" ++ f ++ "\": " ++
        ("one of [" ++ String.intercalate ", " (vs.map (fun v => "\"" ++ jsShow v ++ "\"")) ++ "]")) ∧
    (∀ (f : String) (prop : PropSchema),
      prop.enum = none → prop.description = none →
      (prop.type = some "string" → missingSuggestion f prop = "Add \"" ++ f ++ "\": " ++ "\"your-value\"") ∧
      (prop.type = some "number" → missingSuggestion f prop = "Add \"" ++ f ++ "\": " ++ "123") ∧
      (prop.type = some "boolean" → missingSuggestion f prop = "Add \"" ++ f ++ "\": " ++ "true")) ∧
    (∀ (f : String) (prop : PropSchema) (d : String),
      prop.description = some d → d ≠ "" →
      ∃ b, missingSuggestion f prop = b ++ " // " ++ d) ∧
    (∀ (data : List (String × JSVal)) (schema : JSONSchema)
       (props : List (String × PropSchema)) (f : String) (fs : PropSchema)
       (vs : List JSVal) (v : JSVal),
      schema.properties = some props → (f, fs) ∈ props → fs.enum = some vs →
      jsLookup data f = some v → vs.any (fun w => jsEnumEq w v) = false →
      ("Invalid value for " ++ f ++ ": \"" ++ jsShow v ++ "\"") ∈
        (validateAgainstSchema data schema).errors ∧
      ("Use one of: " ++ String.intercalate ", " (vs.map (fun w => "\"" ++ jsShow w ++ "\""))) ∈
        (validateAgainstSchema data schema).suggestions) ∧
    (∀ (data : List (String × JSVal)) (schema : JSONSchema),
      (validateAgainstSchema data schema).valid = true ↔
        (validateAgainstSchema data schema).errors = []) ∧
    (∀ (data : List (String × JSVal)) (schema : JSONSchema),
      (∀ req, schema.required = some req → ∀ f ∈ req, hasKey data f = true) →
      (∀ props, schema.properties = some props → ∀ p ∈ props, ∀ vs, p.2.enum = some vs →
        ∀ v, jsLookup data p.1 = some v → vs.any (fun w => jsEnumEq w v) = true) →
      (validateAgainstSchema data schema).valid = true) ∧
    (∀ (schema : JSONSchema) (f : String) (inner inner' rest : List (String × JSVal)),
      validateAgainstSchema ((f, .obj inner) :: rest) schema =
        validateAgainstSchema ((f, .obj inner') :: rest) schema) ∧
    (validateAgainstSchema []
        { required := some ["output"],
          properties := some [("output",
            { type := some "string", enum := some [.str "json", .str "yaml"] })] } =
      { valid := false, errors := ["Missing required field: output"],
        suggestions := ["Add \"output\": one of [\"json\", \"yaml\"]"] }) ∧
    (validateAgainstSchema [("output", .str "table")]
        { required := some ["output"],
          properties := some [("output",
            { type := some "string", enum := some [.str "json", .str "yaml"] })] } =
      { valid := false, errors := ["Invalid value for output: \"table\""],
        suggestions := ["Use one of: \"json\", \"yaml\""] }) := by
  refine ⟨?_, ?_, ?_, ?_, ?_, ?_, ?_, ?_, ?_, ?_, ?_⟩
  · intro data schema req f hreq hf hk
    show ("Missing required field: " ++ f) ∈ requiredErrors data schema ++ enumErrors data schema
    refine List.mem_append_left _ ?_
    unfold requiredErrors
    rw [hreq]
    exact List.mem_map.mpr ⟨f, List.mem_filter.mpr ⟨hf, by simp [hk]⟩, rfl⟩
  · intro data schema req props f prop hreq hprops hf hk hlook
    show missingSuggestion f prop ∈ requiredSuggestions data schema ++ enumSuggestions data schema
    refine List.mem_append_left _ ?_
    unfold requiredSuggestions
    rw [hreq, hprops]
    exact List.mem_filterMap.mpr ⟨f, List.mem_filter.mpr ⟨hf, by simp [hk]⟩,
      by dsimp only; rw [hlook]; rfl⟩
  · intro f prop vs he hd
    unfold missingSuggestion
    rw [he, hd]
  · intro f prop he hd
    refine ⟨?_, ?_, ?_⟩ <;> intro ht <;> unfold missingSuggestion <;> rw [he, ht, hd] <;> rfl
  · intro f prop d hd hne
    unfold missingSuggestion
    rw [hd]
    dsimp only
    rw [if_neg (by simp [hne])]
    exact ⟨_, rfl⟩
  · intro data schema props f fs vs v hprops hmem he hlook hany
    have hkey := jsLookup_hasKey data f v hlook
    have hviol : enumViolation data (f, fs) =
        some ("Invalid value for " ++ f ++ ": \"" ++ jsShow v ++ "\"",
              "Use one of: " ++ String.intercalate ", " (vs.map (fun w => "\"" ++ jsShow w ++ "\""))) := by
      unfold enumViolation
      dsimp only
      rw [he]
      dsimp only
      rw [if_pos hkey, hlook]
      dsimp only
      rw [if_neg (by simp [hany])]
    constructor
    · show _ ∈ requiredErrors data schema ++ enumErrors data schema
      refine List.mem_append_right _ ?_
      unfold enumErrors
      rw [hprops]
      exact List.mem_filterMap.mpr ⟨(f, fs), hmem, by rw [hviol]; rfl⟩
    · show _ ∈ requiredSuggestions data schema ++ enumSuggestions data schema
      refine List.mem_append_right _ ?_
      unfold enumSuggestions
      rw [hprops]
      exact List.mem_filterMap.mpr ⟨(f, fs), hmem, by rw [hviol]; rfl⟩
  · intro data schema
    show ((requiredErrors data schema ++ enumErrors data schema) == []) = true ↔ _
    simp [validateAgainstSchema]
  · intro data schema hreq henum
    have h1 : requiredErrors data schema = [] := by
      unfold requiredErrors
      cases hr : schema.required with
      | none => rfl
      | some req =>
        have : req.filter (fun f => !hasKey data f) = [] := by
          refine List.filter_eq_nil_iff.mpr ?_
          intro f hf
          simp [hreq req hr f hf]
        dsimp only
        rw [this]
        rfl
    have h2 : enumErrors data schema = [] := by
      unfold enumErrors
      cases hp : schema.properties with
      | none => rfl
      | some props =>
        dsimp only
        refine List.filterMap_eq_nil_iff.mpr ?_
        intro p hpmem
        suffices h : enumViolation data p = none by rw [h]; rfl
        unfold enumViolation
        cases he : p.2.enum with
        | none => rfl
        | some vs =>
          dsimp only
          by_cases hk : hasKey data p.1 = true
          · obtain ⟨v, hv⟩ := hasKey_jsLookup data p.1 hk
            rw [if_pos hk, hv]
            dsimp only
            rw [if_pos (by simp [henum props hp p hpmem vs he v hv])]
          · rw [if_neg hk]
    show ((requiredErrors data schema ++ enumErrors data schema) == []) = true
    rw [h1, h2]
    rfl
  · intro schema f inner inner' rest
    have hreq : requiredErrors ((f, JSVal.obj inner) :: rest) schema =
        requiredErrors ((f, JSVal.obj inner') :: rest) schema := rfl
    have hreqs : requiredSuggestions ((f, JSVal.obj inner) :: rest) schema =
        requiredSuggestions ((f, JSVal.obj inner') :: rest) schema := rfl
    have hviol : (fun p => (enumViolation ((f, JSVal.obj inner) :: rest) p).map
          (fun (q : String × String) => q.1)) =
        (fun p => (enumViolation ((f, JSVal.obj inner') :: rest) p).map
          (fun (q : String × String) => q.1)) := by
      funext p
      rw [enumViolation_obj_irrel f inner inner' rest p]
    have hviol2 : (fun p => (enumViolation ((f, JSVal.obj inner) :: rest) p).map
          (fun (q : String × String) => q.2)) =
        (fun p => (enumViolation ((f, JSVal.obj inner') :: rest) p).map
          (fun (q : String × String) => q.2)) := by
      funext p
      rw [enumViolation_obj_irrel f inner inner' rest p]
    have he : enumErrors ((f, JSVal.obj inner) :: rest) schema =
        enumErrors ((f, JSVal.obj inner') :: rest) schema := by
      unfold enumErrors
      cases schema.properties with
      | none => rfl
      | some props => dsimp only; rw [hviol]
    have hs : enumSuggestions ((f, JSVal.obj inner) :: rest) schema =
        enumSuggestions ((f, JSVal.obj inner') :: rest) schema := by
      unfold enumSuggestions
      cases schema.properties with
      | none => rfl
      | some props => dsimp only; rw [hviol2]
    unfold validateAgainstSchema
    rw [hreq, hreqs, he, hs]
  · rfl
  · rfl

/-- Witness for C4 on the canonical example schema (required field
"output" with enum [json, yaml]): the empty call is missing the field,
the "table" call violates the enum, and a "json" call validates. -/
theorem validateAgainstSchema_spec_witness :
    ("Missing required field: " ++ "output") ∈
      (validateAgainstSchema []
        { required := some ["output"],
          properties := some [("output",
            { type := some "string", enum := some [.str "json", .str "yaml"] })] }).errors ∧
    ("Invalid value for " ++ "output" ++ ": \"" ++ jsShow (.str "table") ++ "\"") ∈
      (validateAgainstSchema [("output", .str "table")]
        { required := some ["output"],
          properties := some [("output",
            { type := some "string", enum := some [.str "json", .str "yaml"] })] }).errors ∧
    (validateAgainstSchema [("output", .str "json")]
        { required := some ["output"],
          properties := some [("output",
            { type := some "string", enum := some [.str "json", .str "yaml"] })] }).valid = true := by
  refine ⟨?_, ?_, ?_⟩
  · exact validateAgainstSchema_spec.1 []
      { required := some ["output"],
        properties := some [("output",
          { type := some "string", enum := some [.str "json", .str "yaml"] })] }
      ["output"] "output" rfl (List.mem_singleton.mpr rfl) rfl
  · exact (validateAgainstSchema_spec.2.2.2.2.2.1 [("output", .str "table")]
      { required := some ["output"],
        properties := some [("output",
          { type := some "string", enum := some [.str "json", .str "yaml"] })] }
      [("output", { type := some "string", enum := some [.str "json", .str "yaml"] })]
      "output" { type := some "string", enum := some [.str "json", .str "yaml"] }
      [.str "json", .str "yaml"] (.str "table")
      rfl (List.mem_singleton.mpr rfl) rfl rfl rfl).1
  · refine validateAgainstSchema_spec.2.2.2.2.2.2.2.1 [("output", .str "json")]
      { required := some ["output"],
        properties := some [("output",
          { type := some "string", enum := some [.str "json", .str "yaml"] })] }
      ?_ ?_
    · intro req hr
      cases hr
      intro f hf
      rcases List.mem_singleton.mp hf with rfl
      rfl
    · intro props hp
      cases hp
      intro p hp' vs hv v hl
      rcases List.mem_singleton.mp hp' with rfl
      injection hv with hv
      subst hv
      injection hl with hl
      subst hl
      rfl
